import Mathlib

/-!
# Verification of the speedrun remote-job orchestrator (`speedrun.py`)

A shallow embedding of `speedrun.py`.  The vast.ai backend, the SSH
transport and the local filesystem are modelled as oracles supplied in a
`Config`; the orchestrator is embedded as pure functions that return the
run's outcome (an `Except` mirroring raised exceptions) together with the
trace of externally observable calls, in order.  Python's
`try`/`finally` nesting of `SpeedRun.run` is translated by explicit
sequencing: the `finally` trace is always appended, and an exception
raised inside a `finally` block replaces the pending outcome, exactly as
in Python.  Prices and durations are carried as natural numbers (whole
dollars per hour, whole hours); the claims under study are
scale-invariant.
-/

namespace Speedrun

/-- An offer row as returned by `vastai search offers --raw`
(`speedrun.py` uses keys `id`, `num_gpus`, `gpu_total_ram`, `gpu_ram`,
`gpu_name`, `dph_total`; only the fields the orchestrator reads are
kept). -/
structure Offer where
  id : Int
  num_gpus : Nat
  gpu_total_ram : Nat
  dph_total : Nat
deriving DecidableEq, Repr

/-- The ordering clause of a `vastai search offers` call:
`--order num_gpus-,gpu_total_ram-` for the three multi-GPU tiers,
`--order gpu_total_ram-` for the final tier. -/
inductive OrderBy where
  | gpusThenTotalRam
  | totalRamOnly
deriving DecidableEq, Repr

/-- One `vastai search offers` query as issued by `find_best_gpu`
(lines 46-81): the common `rentable=true reliability>0.95` filter, an
optional minimum GPU count, an optional `dph_total` ceiling (dollars per
hour), the ordering clause, and `--limit 10`. -/
structure Query where
  rentable : Bool
  reliability_gt_95 : Bool
  min_gpus : Option Nat
  max_dph : Option Nat
  order_by : OrderBy
  limit : Nat
deriving DecidableEq, Repr

/-- Tier 1 (line 46): `num_gpus>=4 dph_total<10.0`. -/
def tier1Query : Query := ⟨true, true, some 4, some 10, OrderBy.gpusThenTotalRam, 10⟩

/-- Tier 2 (line 56): `num_gpus>=4`, no price ceiling. -/
def tier2Query : Query := ⟨true, true, some 4, none, OrderBy.gpusThenTotalRam, 10⟩

/-- Tier 3 (line 66): `num_gpus>=2`. -/
def tier3Query : Query := ⟨true, true, some 2, none, OrderBy.gpusThenTotalRam, 10⟩

/-- Tier 4 (line 76): any GPU count, ordered by total GPU memory. -/
def tier4Query : Query := ⟨true, true, none, none, OrderBy.totalRamOnly, 10⟩

/-- The exceptions the orchestrator can raise.  `speedrun.py` raises
`RuntimeError` everywhere; the constructors record which `raise` site
(or which failing backend/transport call) produced it. -/
inductive Err where
  | noResource          -- line 84: `RuntimeError("No GPU instances found")`
  | createFailed        -- `vastai create instance` failed (line 37)
  | waitFailed          -- a `vastai show instances` poll failed (line 37)
  | archiveFailed       -- tar writing raised inside `package_project`
  | connectFailed       -- `ssh.connect` raised (line 190)
  | uploadFailed        -- `scp.put` raised (line 197)
  | trainingFailed      -- line 236: `RuntimeError("Training failed")`
  | artifactSearchFailed  -- a remote `find` for artifacts raised
  | destroyFailed       -- `vastai destroy instance` failed (line 37)
deriving DecidableEq, Repr

/-- Outcomes (`Except`) over decidable payloads compare decidably, so
concrete runs can be checked by evaluation. -/
instance {ε α : Type} [DecidableEq ε] [DecidableEq α] : DecidableEq (Except ε α)
  | Except.ok a, Except.ok b =>
    if h : a = b then isTrue (by rw [h])
    else isFalse (by intro hh; cases hh; exact h rfl)
  | Except.ok _, Except.error _ => isFalse (by intro hh; cases hh)
  | Except.error _, Except.ok _ => isFalse (by intro hh; cases hh)
  | Except.error e, Except.error e' =>
    if h : e = e' then isTrue (by rw [h])
    else isFalse (by intro hh; cases hh; exact h rfl)

/-- The `"22/tcp"` entry of the instance's `ports` mapping, when the
mapping is present and has that key: either a list of host-port
bindings (each contributing its `HostPort`) or a bare value
(lines 173-178). -/
inductive PortEntry where
  | pyList : List Int → PortEntry
  | bare : Int → PortEntry
deriving DecidableEq, Repr

/-- The instance metadata record returned by `wait_for_instance`, with
the fields `run_on_instance` reads.  `ports22 = none` covers both a
missing `ports` dict and a `ports` dict without a `"22/tcp"` key. -/
structure InstInfo where
  public_ipaddr : String
  ssh_host : Option String
  ssh_port : Option Int
  ports22 : Option PortEntry
  direct_port_start : Option Int
deriving DecidableEq, Repr

/-- The value `run_on_instance` leaves in its `port` variable.  When the
`"22/tcp"` entry is an empty list, the Python code falls into the
`else` branch of line 175 and keeps the whole (empty) list as the
port value, so the result type must allow a raw list. -/
inductive ConnPort where
  | num : Int → ConnPort
  | rawList : List Int → ConnPort
deriving DecidableEq, Repr

/-- Connection resolution, lines 163-184: host starts as
`public_ipaddr`; method 1 takes explicit `ssh_host`/`ssh_port` when
both are present, method 2 the `"22/tcp"` port mapping (first binding
of a non-empty list, otherwise the bare value), method 3
`direct_port_start`, method 4 the default port 22. -/
def resolveConn (info : InstInfo) : String × ConnPort :=
  match info.ssh_host, info.ssh_port with
  | some h, some p => (h, ConnPort.num p)
  | _, _ =>
    match info.ports22 with
    | some (PortEntry.pyList (b :: _)) => (info.public_ipaddr, ConnPort.num b)
    | some (PortEntry.pyList []) => (info.public_ipaddr, ConnPort.rawList [])
    | some (PortEntry.bare p) => (info.public_ipaddr, ConnPort.num p)
    | none =>
      match info.direct_port_start with
      | some p => (info.public_ipaddr, ConnPort.num p)
      | none => (info.public_ipaddr, ConnPort.num 22)

/-- Remote file paths are represented by their `/`-separated component
lists; the filename `Path(...).name` is the last component. -/
def basename (f : List String) : String := f.getLastD ""

/-- The externally observable calls of a run, in program order:
the four kinds of `vastai` CLI invocations, the local temp-file
operations of `package_project` and the cleanup `unlink`, the SSH/SCP
operations of `run_on_instance`, and the cost report printed at
line 292. -/
inductive Event where
  | searchOffers : Query → Event        -- `vastai search offers ...`
  | createInstance : Int → Event        -- `vastai create instance <offer id>`
  | showInstances : Event               -- `vastai show instances` (poll)
  | destroyInstance : Int → Event       -- `vastai destroy instance <cid>`
  | createTempFile : Event              -- NamedTemporaryFile(delete=False), line 148
  | writeArchive : Event                -- tarfile writing, lines 152-155
  | unlinkPackage : Event               -- package_path.unlink(), line 295
  | sshConnect : String → ConnPort → Event  -- ssh.connect, line 190
  | upload : Event                      -- scp.put, line 197
  | remoteSetup : Event                 -- extract / locate train.py / requirements
  | execTrain : Event                   -- `python train.py`, line 229
  | remoteFind : String → Event         -- `find ... -name '<pattern>'`, line 248
  | mkdirResults : String → Event       -- results_dir.mkdir, line 255
  | download : List String → String → Event  -- scp.get remote → local filename, line 262
  | sshClose : Event                    -- ssh.close(), line 269
  | reportCost : Nat → Event            -- cost print, lines 290-292
deriving DecidableEq, Repr

def isSearchOffers : Event → Bool
  | Event.searchOffers _ => true
  | _ => false

def isCreateInstance : Event → Bool
  | Event.createInstance _ => true
  | _ => false

def isDestroyInstance : Event → Bool
  | Event.destroyInstance _ => true
  | _ => false

def isUnlinkPackage : Event → Bool
  | Event.unlinkPackage => true
  | _ => false

def isReportCost : Event → Bool
  | Event.reportCost _ => true
  | _ => false

def isRemoteFind : Event → Bool
  | Event.remoteFind _ => true
  | _ => false

def isMkdirResults : Event → Bool
  | Event.mkdirResults _ => true
  | _ => false

def isDownload : Event → Bool
  | Event.download _ _ => true
  | _ => false

def isCreateTempFile : Event → Bool
  | Event.createTempFile => true
  | _ => false

/-- Any artifact-collection activity (search, directory creation, or
download). -/
def isArtifactEvent (e : Event) : Bool :=
  isRemoteFind e || isMkdirResults e || isDownload e

/-- Calls that hit the vast.ai backend (the `vastai` CLI). -/
def isBackendCall : Event → Bool
  | Event.searchOffers _ => true
  | Event.createInstance _ => true
  | Event.showInstances => true
  | Event.destroyInstance _ => true
  | _ => false

/-- `VastAI.find_best_gpu`, lines 41-94: the four-tier fallback over a
backend search oracle.  Each tier is queried only if every earlier tier
returned an empty list; the first element of the first non-empty result
is selected; if all four are empty, line 84 raises. -/
def find_best_gpu (search : Query → List Offer) : Except Err Offer × List Event :=
  match search tier1Query with
  | best :: _ => (Except.ok best, [Event.searchOffers tier1Query])
  | [] =>
    match search tier2Query with
    | best :: _ =>
      (Except.ok best, [Event.searchOffers tier1Query, Event.searchOffers tier2Query])
    | [] =>
      match search tier3Query with
      | best :: _ =>
        (Except.ok best,
          [Event.searchOffers tier1Query, Event.searchOffers tier2Query,
            Event.searchOffers tier3Query])
      | [] =>
        match search tier4Query with
        | best :: _ =>
          (Except.ok best,
            [Event.searchOffers tier1Query, Event.searchOffers tier2Query,
              Event.searchOffers tier3Query, Event.searchOffers tier4Query])
        | [] =>
          (Except.error Err.noResource,
            [Event.searchOffers tier1Query, Event.searchOffers tier2Query,
              Event.searchOffers tier3Query, Event.searchOffers tier4Query])

/-- The five artifact glob patterns of line 244. -/
def patterns : List String := ["*.pt", "*.pth", "*.pkl", "*.h5", "*.hdf5"]

/-- `find <dir> -name '<pattern>' -type f` with one of the five fixed
patterns `*.<ext>` matches a file iff its basename ends in `.<ext>`
(dropping the leading `*` of the pattern gives the required suffix). -/
def matchPat (pat : String) (f : List String) : Bool :=
  decide ((pat.data.drop 1) <:+ (basename f).data)

/-- The `model_files` list built by lines 247-250: for each pattern in
order, the matching remote files are appended (`extend`). -/
def modelFiles (files : List (List String)) : List (List String) :=
  patterns.flatMap fun pat => files.filter fun f => matchPat pat f

/-- The results directory name of line 254:
`speedrun_results_{int(time.time())}`. -/
def resultsDirName (t : Nat) : String := "speedrun_results_" ++ toString t

/-- The environment of one run: what the backend, the remote instance
and the local filesystem answer at each step, including injectable
failures.  `none`/`false` at a step means the corresponding Python call
raises there. -/
structure Config where
  /-- Results of `vastai search offers` per query. -/
  search : Query → List Offer
  /-- `create_instance`: `result["new_contract"]`, or `none` when the
  `vastai create` call fails. -/
  new_contract : Option Int
  /-- `wait_for_instance`: the metadata of the running instance, or
  `none` when a `vastai show instances` poll fails. -/
  instance_info : Option InstInfo
  /-- Whether the tar writing of lines 152-155 succeeds (the temp file
  of line 148 exists either way). -/
  archive_ok : Bool
  /-- Whether `ssh.connect` (line 190) succeeds. -/
  connect_ok : Bool
  /-- Whether `scp.put` (line 197) succeeds. -/
  upload_ok : Bool
  /-- Exit status of the remote `python train.py` (line 235). -/
  exit_status : Nat
  /-- Whether the remote artifact `find` commands succeed. -/
  artifact_search_ok : Bool
  /-- The files under the remote project directory, as component
  paths relative to it. -/
  remote_files : List (List String)
  /-- Whether `vastai destroy instance` succeeds. -/
  destroy_ok : Bool
  /-- Wall-clock hours between the `start_time` recorded at line 273
  and the cost computation at line 290. -/
  elapsed_hours : Nat
  /-- `int(time.time())` when the results directory is created. -/
  timestamp : Nat

/-- Artifact collection, lines 241-266: five `find` calls build
`model_files`; if the list is empty only a notice is printed; otherwise
the timestamped results directory is created and each file is
downloaded to `<results_dir>/<basename>`.  An injected search failure
raises out of the first `find`. -/
def collectArtifacts (c : Config) : Except Err Unit × List Event :=
  if c.artifact_search_ok then
    let fs := modelFiles c.remote_files
    if fs.isEmpty then (Except.ok (), patterns.map Event.remoteFind)
    else
      (Except.ok (),
        patterns.map Event.remoteFind
          ++ Event.mkdirResults (resultsDirName c.timestamp)
            :: fs.map fun f => Event.download f (basename f))
  else (Except.error Err.artifactSearchFailed, [Event.remoteFind "*.pt"])

/-- The body of the `try` of lines 194-266: upload, remote setup, run
the training job (raising `RuntimeError("Training failed")` on a
nonzero exit status, line 236, before any artifact activity), then
collect artifacts. -/
def driverBody (c : Config) : Except Err Unit × List Event :=
  if c.upload_ok then
    if c.exit_status ≠ 0 then
      (Except.error Err.trainingFailed, [Event.upload, Event.remoteSetup, Event.execTrain])
    else
      let r := collectArtifacts c
      (r.1, [Event.upload, Event.remoteSetup, Event.execTrain] ++ r.2)
  else (Except.error Err.uploadFailed, [Event.upload])

/-- `run_on_instance`, lines 161-269: resolve the connection, connect
(an exception here propagates before the session-scoped `try` is
entered), run the driver body, and close the session in the `finally`
of line 268 on every exit of the body. -/
def run_on_instance (c : Config) (info : InstInfo) : Except Err Unit × List Event :=
  let hp := resolveConn info
  if c.connect_ok then
    let r := driverBody c
    (r.1, Event.sshConnect hp.1 hp.2 :: r.2 ++ [Event.sshClose])
  else (Except.error Err.connectFailed, [Event.sshConnect hp.1 hp.2])

/-- `package_project`, lines 144-159, at the event level: the temp file
is created first (`delete=False`, line 148); if the tar writing then
raises, the exception propagates with the temp file left on disk. -/
def packagePhase (c : Config) : Except Err Unit × List Event :=
  if c.archive_ok then (Except.ok (), [Event.createTempFile, Event.writeArchive])
  else (Except.error Err.archiveFailed, [Event.createTempFile])

/-- The inner `try`/`finally` of lines 285-295: run the deployment, on
success compute and report `cost = elapsed_hours * dph_total` from the
recorded start time and the originally selected offer (lines 290-292),
and unconditionally unlink the package in the `finally` of line 294. -/
def innerPhase (c : Config) (info : InstInfo) (offer : Offer) : Except Err Unit × List Event :=
  let r := run_on_instance c info
  match r.1 with
  | Except.ok _ =>
    (Except.ok (),
      r.2 ++ [Event.reportCost (c.elapsed_hours * offer.dph_total), Event.unlinkPackage])
  | Except.error e => (Except.error e, r.2 ++ [Event.unlinkPackage])

/-- Lines 283-295: package the project (temp-file creation, then tar
writing whose failure propagates before the inner `try` is entered),
then the inner phase. -/
def afterProvision (c : Config) (info : InstInfo) (offer : Offer) :
    Except Err Unit × List Event :=
  let p := packagePhase c
  match p.1 with
  | Except.error e => (Except.error e, p.2)
  | Except.ok _ =>
    let r := innerPhase c info offer
    (r.1, p.2 ++ r.2)

/-- The body of the outer `try` of lines 276-295, also recording the
value of the `contract_id` variable (initialised to `None` at line 274,
assigned at line 279) as it stands when the body exits. -/
def tryBody (c : Config) : Option Int × (Except Err Unit × List Event) :=
  match find_best_gpu c.search with
  | (Except.error e, ftr) => (none, (Except.error e, ftr))
  | (Except.ok offer, ftr) =>
    match c.new_contract with
    | none => (none, (Except.error Err.createFailed, ftr ++ [Event.createInstance offer.id]))
    | some cid =>
      match c.instance_info with
      | none =>
        (some cid,
          (Except.error Err.waitFailed,
            ftr ++ [Event.createInstance offer.id, Event.showInstances]))
      | some info =>
        let r := afterProvision c info offer
        (some cid,
          (r.1, ftr ++ [Event.createInstance offer.id, Event.showInstances] ++ r.2))

/-- `SpeedRun.run`, lines 271-299: the outer `try` body, then the
`finally` of lines 297-299.  The guard `if contract_id:` is Python
truthiness: the destroy call is issued only when `contract_id` is
neither `None` nor `0`.  A `RuntimeError` raised by the destroy call
propagates out of the `finally`, replacing the pending outcome (Python
semantics for an exception raised inside `finally`). -/
def run (c : Config) : Except Err Unit × List Event :=
  let b := tryBody c
  match b.1 with
  | none => b.2
  | some cid =>
    if cid ≠ 0 then
      if c.destroy_ok then (b.2.1, b.2.2 ++ [Event.destroyInstance cid])
      else (Except.error Err.destroyFailed, b.2.2 ++ [Event.destroyInstance cid])
    else b.2

/-- Does a component name start with a dot? (`item.name.startswith('.')`,
line 154). -/
def startsWithDot (s : String) : Bool :=
  match s.data with
  | c :: _ => c == '.'
  | [] => false

/-- The file contents of the archive built by `package_project`
(lines 152-155).  The project directory is represented by the list of
its files' relative component paths.  The loop iterates over the
top-level entries only (`project_path.iterdir()`), skips those whose
name starts with a dot, and `tar.add` then archives everything below a
kept entry recursively — so a file is archived iff its first path
component does not start with a dot. -/
def package_project (files : List (List String)) : List (List String) :=
  files.filter fun p =>
    match p with
    | c :: _ => ! startsWithDot c
    | [] => false

/-- The local filenames targeted by the download events of a trace. -/
def downloadTargets (tr : List Event) : List String :=
  tr.filterMap fun e =>
    match e with
    | Event.download _ n => some n
    | _ => none

/-- Local results-directory state: filename → last remote file written
to it.  `setEntry` is one `scp.get` into `<results_dir>/<filename>`,
overwriting any file already at that path. -/
def setEntry (st : List (String × List String)) (k : String) (v : List String) :
    List (String × List String) :=
  match st with
  | [] => [(k, v)]
  | (k', v') :: rest => if k' = k then (k, v) :: rest else (k', v') :: setEntry rest k v

/-- Look up the file currently stored at a local filename. -/
def lookupEntry (st : List (String × List String)) (k : String) : Option (List String) :=
  match st with
  | [] => none
  | (k', v') :: rest => if k' = k then some v' else lookupEntry rest k

/-- The local results directory after the download loop of
lines 258-262 has written every file of `model_files`, in order. -/
def applyDownloads (fs : List (List String)) : List (String × List String) :=
  fs.foldl (fun st f => setEntry st (basename f) f) []

/-- The last file in `fs` whose basename is `k`, if any: with
last-write-wins overwriting this is the file that survives at local
name `k`. -/
def lastMatch (fs : List (List String)) (k : String) : Option (List String) :=
  match fs with
  | [] => none
  | f :: rest =>
    match lastMatch rest k with
    | some g => some g
    | none => if basename f = k then some f else none

/-! ### Concrete environments used in counterexamples and witnesses -/

/-- An 8-GPU tier-1 offer at 5 dollars per hour. -/
def offerX : Offer := ⟨101, 8, 640, 5⟩

/-- A catalog whose first tier holds exactly `offerX` and whose other
tiers are empty. -/
def searchOne : Query → List Offer := fun q => if q = tier1Query then [offerX] else []

/-- Running-instance metadata exposing only `direct_port_start`. -/
def infoX : InstInfo := ⟨"1.2.3.4", none, none, none, some 41234⟩

/-- A fully successful environment: tier-1 offer, contract id 7,
instance ready, packaging/connect/upload fine, job exit status 0, one
artifact, destroy succeeds, two elapsed hours. -/
def baseCfg : Config :=
  { search := searchOne, new_contract := some 7, instance_info := some infoX,
    archive_ok := true, connect_ok := true, upload_ok := true, exit_status := 0,
    artifact_search_ok := true, remote_files := [["model.pt"]],
    destroy_ok := true, elapsed_hours := 2, timestamp := 5 }

/-- The backend reports `new_contract = 0` for the created instance. -/
def cfgContractZero : Config := { baseCfg with new_contract := some 0 }

/-- The cleanup `vastai destroy instance` call fails. -/
def cfgDestroyFail : Config := { baseCfg with destroy_ok := false }

/-- `scp.put` fails during deployment. -/
def cfgUploadFail : Config := { baseCfg with upload_ok := false }

/-- The remote job exits with status 1. -/
def cfgJobFail : Config := { baseCfg with exit_status := 1 }

/-- The remote job exits with status 1 and the backend had reported
`new_contract = 0`. -/
def cfgJobFailZeroCid : Config := { baseCfg with new_contract := some 0, exit_status := 1 }

/-- Tar writing fails inside `package_project`, after the temp file of
line 148 was created. -/
def cfgArchiveFail : Config := { baseCfg with archive_ok := false }

/-! ## General facts about the embedded definitions -/

/-- Every event emitted by `find_best_gpu` is a catalog search. -/
lemma find_best_gpu_trace_searches (s : Query → List Offer) :
    ∀ e ∈ (find_best_gpu s).2, isSearchOffers e = true := by
  unfold find_best_gpu
  cases s tier1Query with
  | cons a l => intro e he; simp at he; simp [he, isSearchOffers]
  | nil =>
    cases s tier2Query with
    | cons a l => intro e he; simp at he; rcases he with h | h <;> simp [h, isSearchOffers]
    | nil =>
      cases s tier3Query with
      | cons a l =>
        intro e he; simp at he; rcases he with h | h | h <;> simp [h, isSearchOffers]
      | nil =>
        cases s tier4Query with
        | cons a l =>
          intro e he; simp at he; rcases he with h | h | h | h <;> simp [h, isSearchOffers]
        | nil =>
          intro e he; simp at he; rcases he with h | h | h | h <;> simp [h, isSearchOffers]

lemma find_trace_filter_eq_nil (s : Query → List Offer) (p : Event → Bool)
    (hp : ∀ e, isSearchOffers e = true → p e = false) :
    (find_best_gpu s).2.filter p = [] := by
  rw [List.filter_eq_nil_iff]
  intro e he
  have := find_best_gpu_trace_searches s e he
  simp [hp e this]

/-- Two suffixes of the same list are comparable. -/
lemma suffix_comparable {α : Type} {l₁ l₂ l₃ : List α} (h₁ : l₁ <:+ l₃) (h₂ : l₂ <:+ l₃) :
    l₁ <:+ l₂ ∨ l₂ <:+ l₁ := by
  obtain ⟨t₁, rfl⟩ := h₁
  obtain ⟨t₂, e⟩ := h₂
  rcases Nat.le_total t₁.length t₂.length with hle | hle
  · right
    have e₁ : l₂ = l₁.drop (t₂.length - t₁.length) := by
      have e₀ : l₂ = (t₁ ++ l₁).drop t₂.length := by rw [← e, List.drop_left]
      rw [e₀]
      nth_rewrite 1 [← Nat.add_sub_cancel' hle]
      rw [← List.drop_drop, List.drop_left]
    exact e₁ ▸ List.drop_suffix _ _
  · left
    have e₂ : l₁ = l₂.drop (t₁.length - t₂.length) := by
      have e₀ : l₁ = (t₂ ++ l₂).drop t₁.length := by rw [e, List.drop_left]
      rw [e₀]
      nth_rewrite 1 [← Nat.add_sub_cancel' hle]
      rw [← List.drop_drop, List.drop_left]
    exact e₂ ▸ List.drop_suffix _ _

lemma not_both_suffix {a b : List Char} (hab : ¬ a <:+ b) (hba : ¬ b <:+ a) :
    ∀ s : List Char, ¬ (a <:+ s ∧ b <:+ s) := by
  rintro s ⟨h₁, h₂⟩
  rcases suffix_comparable h₁ h₂ with h | h
  · exact hab h
  · exact hba h

/-- Incomparable pattern suffixes never match the same file. -/
lemma matchPat_disj {p q : String}
    (hpq : ¬ (p.data.drop 1) <:+ (q.data.drop 1))
    (hqp : ¬ (q.data.drop 1) <:+ (p.data.drop 1)) (f : List String) :
    ¬ (matchPat p f = true ∧ matchPat q f = true) := by
  rintro ⟨h₁, h₂⟩
  rw [matchPat, decide_eq_true_eq] at h₁ h₂
  exact not_both_suffix hpq hqp _ ⟨h₁, h₂⟩

/-- No file matches two distinct patterns of the fixed pattern list:
the five extension suffixes are pairwise incomparable. -/
lemma patterns_pairwise_disj :
    patterns.Pairwise fun p q => ∀ f, ¬ (matchPat p f = true ∧ matchPat q f = true) := by
  unfold patterns
  refine List.Pairwise.cons ?_ (List.Pairwise.cons ?_ (List.Pairwise.cons ?_
    (List.Pairwise.cons ?_ (List.Pairwise.cons ?_ List.Pairwise.nil)))) <;>
    intro q hq <;> fin_cases hq <;>
    exact fun f => matchPat_disj (by decide) (by decide) f

/-- Concatenating the filters of pairwise-disjoint predicates over a
duplicate-free list yields a duplicate-free list. -/
lemma nodup_flatMap_filter {α : Type} [DecidableEq α] (l : List α)
    (ps : List (α → Bool)) (hl : l.Nodup)
    (hps : ps.Pairwise fun p q => ∀ a, ¬ (p a = true ∧ q a = true)) :
    (ps.flatMap fun p => l.filter p).Nodup := by
  induction ps with
  | nil => simp
  | cons p ps ih =>
    rw [List.flatMap_cons, List.nodup_append]
    refine ⟨hl.filter p, ih (List.Pairwise.sublist (List.sublist_cons_self p ps) hps), ?_⟩
    intro a ha hb
    rw [List.mem_filter] at ha
    rw [List.mem_flatMap] at hb
    obtain ⟨q, hq, hbq⟩ := hb
    rw [List.mem_filter] at hbq
    exact (List.rel_of_pairwise_cons hps hq) a ⟨ha.2, hbq.2⟩

/-- The `model_files` list has no duplicate remote paths when the
remote filesystem itself has none. -/
lemma modelFiles_nodup {files : List (List String)} (h : files.Nodup) :
    (modelFiles files).Nodup := by
  have hm : modelFiles files =
      ((patterns.map fun pat f => matchPat pat f).flatMap fun p => files.filter p) := by
    unfold modelFiles
    rw [List.flatMap_map]
  rw [hm]
  exact nodup_flatMap_filter files _ h (List.pairwise_map.mpr patterns_pairwise_disj)

/-- Writing at local name `k` changes only the entry for `k`. -/
lemma lookup_setEntry (st : List (String × List String)) (k k' : String) (v : List String) :
    lookupEntry (setEntry st k v) k' = if k' = k then some v else lookupEntry st k' := by
  induction st with
  | nil =>
    simp only [setEntry, lookupEntry]
    split_ifs <;> simp_all [eq_comm]
  | cons a rest ih =>
    obtain ⟨ka, va⟩ := a
    simp only [setEntry, lookupEntry]
    split_ifs <;> simp_all [lookupEntry, ih, eq_comm]

lemma lookup_applyDownloads_aux (fs : List (List String)) :
    ∀ (st : List (String × List String)) (k : String),
      lookupEntry (fs.foldl (fun st f => setEntry st (basename f) f) st) k =
        match lastMatch fs k with
        | some g => some g
        | none => lookupEntry st k := by
  induction fs with
  | nil => intro st k; simp [lastMatch]
  | cons f rest ih =>
    intro st k
    simp only [List.foldl_cons, lastMatch]
    rw [ih]
    cases h : lastMatch rest k with
    | some g => simp
    | none =>
      simp only
      rw [lookup_setEntry]
      by_cases hbk : basename f = k
      · simp [hbk]
      · simp [hbk, Ne.symm hbk]

/-- After the sequential download loop, the file stored at a local
name is the last discovered file with that basename: later downloads
overwrite earlier ones. -/
lemma lookup_applyDownloads (fs : List (List String)) (k : String) :
    lookupEntry (applyDownloads fs) k = lastMatch fs k := by
  unfold applyDownloads
  rw [lookup_applyDownloads_aux]
  cases lastMatch fs k <;> simp [lookupEntry]

/-- A list with a duplicate strictly shrinks under `dedup`. -/
lemma dedup_length_lt {α : Type} [DecidableEq α] {l : List α} (h : ¬ l.Nodup) :
    l.dedup.length < l.length := by
  refine Nat.lt_of_le_of_ne l.dedup_sublist.length_le fun heq => h ?_
  have he := List.Sublist.eq_of_length l.dedup_sublist heq
  rw [← he]
  exact l.nodup_dedup

/-- The outer `try` body once an offer was selected, the instance
created and the poll answered: the contract id is bound and the trace
continues with whatever lines 283-295 produce. -/
lemma tryBody_provisioned (c : Config) (offer : Offer) (ftr : List Event) (cid : Int)
    (info : InstInfo) (hf : find_best_gpu c.search = (Except.ok offer, ftr))
    (hc : c.new_contract = some cid) (hw : c.instance_info = some info) :
    tryBody c =
      (some cid,
        ((afterProvision c info offer).1,
          ftr ++ [Event.createInstance offer.id, Event.showInstances]
            ++ (afterProvision c info offer).2)) := by
  unfold tryBody
  rw [hf, hc, hw]

/-- A provisioned run with a nonzero contract id: the outcome is the
body's outcome unless the destroy call fails, and the destroy call is
the final event. -/
lemma run_provisioned (c : Config) (offer : Offer) (ftr : List Event) (cid : Int)
    (info : InstInfo) (hf : find_best_gpu c.search = (Except.ok offer, ftr))
    (hc : c.new_contract = some cid) (hw : c.instance_info = some info)
    (hcid : cid ≠ 0) :
    run c =
      ((if c.destroy_ok then (afterProvision c info offer).1
        else Except.error Err.destroyFailed),
        ftr ++ [Event.createInstance offer.id, Event.showInstances]
          ++ (afterProvision c info offer).2 ++ [Event.destroyInstance cid]) := by
  unfold run
  rw [tryBody_provisioned c offer ftr cid info hf hc hw]
  simp only [if_pos hcid]
  by_cases hd : c.destroy_ok <;> simp [hd]

/-- Events of a provisioned run that are not backend calls are exactly
the post-provisioning (lines 283-295) events that are not backend
calls. -/
lemma run_filter_provisioned (c : Config) (offer : Offer) (ftr : List Event) (cid : Int)
    (info : InstInfo) (hf : find_best_gpu c.search = (Except.ok offer, ftr))
    (hc : c.new_contract = some cid) (hw : c.instance_info = some info)
    (p : Event → Bool) (hsp : ∀ e, isBackendCall e = true → p e = false) :
    (run c).2.filter p = (afterProvision c info offer).2.filter p := by
  have hftr : ftr.filter p = [] := by
    rw [List.filter_eq_nil_iff]
    intro e he
    have h2 : (find_best_gpu c.search).2 = ftr := by rw [hf]
    have hse := find_best_gpu_trace_searches c.search e (h2 ▸ he)
    have hbe : isBackendCall e = true := by
      cases e <;> simp_all [isSearchOffers, isBackendCall]
    simp [hsp e hbe]
  have hc1 : p (Event.createInstance offer.id) = false := hsp _ rfl
  have hc2 : p Event.showInstances = false := hsp _ rfl
  have hc3 : p (Event.destroyInstance cid) = false := hsp _ rfl
  unfold run
  rw [tryBody_provisioned c offer ftr cid info hf hc hw]
  simp only
  by_cases hcid : cid ≠ 0
  · rw [if_pos hcid]
    by_cases hd : c.destroy_ok <;>
      simp [hd, List.filter_append, List.filter_cons, hftr, hc1, hc2, hc3]
  · rw [if_neg hcid]
    simp [List.filter_append, List.filter_cons, hftr, hc1, hc2]

/-- Packaging succeeded: the inner phase runs after the two temp-file
events. -/
lemma afterProvision_archive_ok (c : Config) (info : InstInfo) (offer : Offer)
    (ha : c.archive_ok = true) :
    afterProvision c info offer =
      ((innerPhase c info offer).1,
        [Event.createTempFile, Event.writeArchive] ++ (innerPhase c info offer).2) := by
  unfold afterProvision packagePhase
  rw [ha]
  simp

/-- Artifact search succeeding means collection returns normally. -/
lemma collectArtifacts_ok (c : Config) (hok : c.artifact_search_ok = true) :
    (collectArtifacts c).1 = Except.ok () := by
  unfold collectArtifacts
  rw [hok]
  by_cases hfs : (modelFiles c.remote_files).isEmpty <;> simp [hfs]

/-- The artifact-collection trace under a predicate rejecting finds,
directory creation and downloads. -/
lemma collect_trace_filter_eq_nil (c : Config) (p : Event → Bool)
    (hfind : ∀ pat, p (Event.remoteFind pat) = false)
    (hmk : ∀ n, p (Event.mkdirResults n) = false)
    (hdl : ∀ f n, p (Event.download f n) = false) :
    (collectArtifacts c).2.filter p = [] := by
  have hfinds : ∀ l : List String, (l.map Event.remoteFind).filter p = [] := by
    intro l
    rw [List.filter_eq_nil_iff]
    intro e he
    rw [List.mem_map] at he
    obtain ⟨a, _, rfl⟩ := he
    simp [hfind]
  unfold collectArtifacts
  by_cases hok : c.artifact_search_ok
  · rw [hok]
    by_cases hfs : (modelFiles c.remote_files).isEmpty
    · simp [hfs, hfinds]
    · simp [hfs, List.filter_append, hfinds, List.filter_cons, hmk]
      exact fun a _ => hdl _ _
  · simp [hok, List.filter_cons, hfind]

/-- A successful deployment phase: connect, upload, setup, run, then
collect, closing the session last. -/
lemma run_on_instance_success (c : Config) (info : InstInfo)
    (hcn : c.connect_ok = true) (hu : c.upload_ok = true) (hx : c.exit_status = 0) :
    run_on_instance c info =
      ((collectArtifacts c).1,
        Event.sshConnect (resolveConn info).1 (resolveConn info).2
          :: ([Event.upload, Event.remoteSetup, Event.execTrain]
            ++ (collectArtifacts c).2) ++ [Event.sshClose]) := by
  unfold run_on_instance driverBody
  rw [hcn, hu, hx]
  simp

/-- A nonzero remote exit status: the deployment phase raises before
any artifact activity, still closing the session. -/
lemma run_on_instance_jobfail (c : Config) (info : InstInfo)
    (hcn : c.connect_ok = true) (hu : c.upload_ok = true) (hx : c.exit_status ≠ 0) :
    run_on_instance c info =
      (Except.error Err.trainingFailed,
        Event.sshConnect (resolveConn info).1 (resolveConn info).2
          :: [Event.upload, Event.remoteSetup, Event.execTrain] ++ [Event.sshClose]) := by
  unfold run_on_instance driverBody
  rw [hcn, hu]
  simp [hx]

/-- The deployment-phase trace under a predicate rejecting every
event the phase can emit. -/
lemma run_on_instance_trace_filter_eq_nil (c : Config) (info : InstInfo) (p : Event → Bool)
    (hssh : ∀ h q, p (Event.sshConnect h q) = false)
    (hup : p Event.upload = false) (hset : p Event.remoteSetup = false)
    (htr : p Event.execTrain = false) (hcl : p Event.sshClose = false)
    (hfind : ∀ pat, p (Event.remoteFind pat) = false)
    (hmk : ∀ n, p (Event.mkdirResults n) = false)
    (hdl : ∀ f n, p (Event.download f n) = false) :
    (run_on_instance c info).2.filter p = [] := by
  unfold run_on_instance driverBody
  by_cases hcn : c.connect_ok
  · by_cases hu : c.upload_ok
    · by_cases hx : c.exit_status ≠ 0
      · simp [hcn, hu, hx, List.filter_cons, List.filter_append, hssh, hup, hset, htr, hcl]
      · simp [hcn, hu, hx, List.filter_cons, List.filter_append, hssh, hup, hset, htr, hcl,
          collect_trace_filter_eq_nil c p hfind hmk hdl]
    · simp [hcn, hu, List.filter_cons, List.filter_append, hssh, hup, hcl]
  · simp [hcn, List.filter_cons, hssh]

/-- The inner `finally` of line 294 deletes the package exactly once on
every exit of the deployment phase. -/
lemma innerPhase_filter_unlink (c : Config) (info : InstInfo) (offer : Offer) :
    (innerPhase c info offer).2.filter isUnlinkPackage = [Event.unlinkPackage] := by
  have hro := run_on_instance_trace_filter_eq_nil c info isUnlinkPackage
    (fun _ _ => rfl) rfl rfl rfl rfl (fun _ => rfl) (fun _ => rfl) (fun _ _ => rfl)
  unfold innerPhase
  cases hr : (run_on_instance c info).1 <;>
    simp [hr, List.filter_append, hro, List.filter_cons, isUnlinkPackage]

/-! ## Claims -/

/-- C6: Connection resolution is a pure, total function over instance
metadata that never fails: in fixed priority order it takes the
explicit ssh host/port pair (both fields present), then the `"22/tcp"`
port mapping (first binding of a non-empty list, or the bare value),
then `direct_port_start`, and for metadata lacking all of these it
returns port 22 with the instance's public address — never a null
port.  Totality over instance metadata never fails by construction:
`resolveConn` is a total Lean function into `String × ConnPort`. -/
theorem connection_resolution_priority (i : InstInfo) :
    (∀ h p, i.ssh_host = some h → i.ssh_port = some p →
      resolveConn i = (h, ConnPort.num p))
    ∧ (∀ b bs, (i.ssh_host = none ∨ i.ssh_port = none) →
      i.ports22 = some (PortEntry.pyList (b :: bs)) →
      resolveConn i = (i.public_ipaddr, ConnPort.num b))
    ∧ (∀ p, (i.ssh_host = none ∨ i.ssh_port = none) →
      i.ports22 = some (PortEntry.bare p) →
      resolveConn i = (i.public_ipaddr, ConnPort.num p))
    ∧ (∀ p, (i.ssh_host = none ∨ i.ssh_port = none) → i.ports22 = none →
      i.direct_port_start = some p →
      resolveConn i = (i.public_ipaddr, ConnPort.num p))
    ∧ ((i.ssh_host = none ∨ i.ssh_port = none) → i.ports22 = none →
      i.direct_port_start = none →
      resolveConn i = (i.public_ipaddr, ConnPort.num 22)) := by
  refine ⟨?_, ?_, ?_, ?_, ?_⟩
  · intro h p hsh hsp
    simp [resolveConn, hsh, hsp]
  · rintro b bs (hsh | hsp) hports
    · simp [resolveConn, hsh, hports]
    · cases hh : i.ssh_host <;> simp [resolveConn, hh, hsp, hports]
  · rintro p (hsh | hsp) hports
    · simp [resolveConn, hsh, hports]
    · cases hh : i.ssh_host <;> simp [resolveConn, hh, hsp, hports]
  · rintro p (hsh | hsp) hports hdps
    · simp [resolveConn, hsh, hports, hdps]
    · cases hh : i.ssh_host <;> simp [resolveConn, hh, hsp, hports, hdps]
  · rintro (hsh | hsp) hports hdps
    · simp [resolveConn, hsh, hports, hdps]
    · cases hh : i.ssh_host <;> simp [resolveConn, hh, hsp, hports, hdps]

/-- Witness for C6: metadata lacking every connectivity field resolves
to the public address and port 22. -/
theorem connection_resolution_priority_w :
    resolveConn ⟨"5.6.7.8", none, none, none, none⟩ = ("5.6.7.8", ConnPort.num 22) :=
  (connection_resolution_priority ⟨"5.6.7.8", none, none, none, none⟩).2.2.2.2
    (Or.inl rfl) rfl rfl

/-- C4: Offer selection is a strict four-tier fallback: if tier `k`
returns at least one offer, later tiers are never queried (the trace
holds exactly the searches up to tier `k`) and the first-ranked
candidate of tier `k` is selected; if all four tiers are empty,
selection fails with the no-resource error, and in any run with that
catalog no instance is ever created. -/
theorem offer_selection_four_tier (s : Query → List Offer) :
    (∀ o rest, s tier1Query = o :: rest →
      find_best_gpu s = (Except.ok o, [Event.searchOffers tier1Query]))
    ∧ (∀ o rest, s tier1Query = [] → s tier2Query = o :: rest →
      find_best_gpu s =
        (Except.ok o, [Event.searchOffers tier1Query, Event.searchOffers tier2Query]))
    ∧ (∀ o rest, s tier1Query = [] → s tier2Query = [] → s tier3Query = o :: rest →
      find_best_gpu s =
        (Except.ok o,
          [Event.searchOffers tier1Query, Event.searchOffers tier2Query,
            Event.searchOffers tier3Query]))
    ∧ (∀ o rest, s tier1Query = [] → s tier2Query = [] → s tier3Query = [] →
      s tier4Query = o :: rest →
      find_best_gpu s =
        (Except.ok o,
          [Event.searchOffers tier1Query, Event.searchOffers tier2Query,
            Event.searchOffers tier3Query, Event.searchOffers tier4Query]))
    ∧ (s tier1Query = [] → s tier2Query = [] → s tier3Query = [] → s tier4Query = [] →
      find_best_gpu s =
        (Except.error Err.noResource,
          [Event.searchOffers tier1Query, Event.searchOffers tier2Query,
            Event.searchOffers tier3Query, Event.searchOffers tier4Query])
      ∧ ∀ c : Config, c.search = s →
        (run c).1 = Except.error Err.noResource
        ∧ (run c).2.filter isCreateInstance = []) := by
  refine ⟨?_, ?_, ?_, ?_, ?_⟩
  · intro o rest h1
    simp [find_best_gpu, h1]
  · intro o rest h1 h2
    simp [find_best_gpu, h1, h2]
  · intro o rest h1 h2 h3
    simp [find_best_gpu, h1, h2, h3]
  · intro o rest h1 h2 h3 h4
    simp [find_best_gpu, h1, h2, h3, h4]
  · intro h1 h2 h3 h4
    have hf : find_best_gpu s =
        (Except.error Err.noResource,
          [Event.searchOffers tier1Query, Event.searchOffers tier2Query,
            Event.searchOffers tier3Query, Event.searchOffers tier4Query]) := by
      simp [find_best_gpu, h1, h2, h3, h4]
    refine ⟨hf, ?_⟩
    intro c hc
    have : run c =
        (Except.error Err.noResource,
          [Event.searchOffers tier1Query, Event.searchOffers tier2Query,
            Event.searchOffers tier3Query, Event.searchOffers tier4Query]) := by
      simp [run, tryBody, hc, hf]
    rw [this]
    simp [isCreateInstance]

/-- Witness for C4: a catalog whose first tier holds one offer selects
it with a single search. -/
theorem offer_selection_four_tier_w :
    find_best_gpu (fun q => if q = tier1Query then [Offer.mk 42 8 640 5] else []) =
      (Except.ok (Offer.mk 42 8 640 5), [Event.searchOffers tier1Query]) :=
  (offer_selection_four_tier fun q => if q = tier1Query then [Offer.mk 42 8 640 5] else []).1
    (Offer.mk 42 8 640 5) [] (by decide)

lemma filter_remoteFind_finds (l : List String) :
    (l.map Event.remoteFind).filter isRemoteFind = l.map Event.remoteFind := by
  rw [List.filter_eq_self]
  intro e he
  rw [List.mem_map] at he
  obtain ⟨a, _, rfl⟩ := he
  simp [isRemoteFind]

lemma filter_downloads_eq_nil (p : Event → Bool) (hp : ∀ f n, p (Event.download f n) = false)
    (l : List (List String)) :
    (l.map fun f => Event.download f (basename f)).filter p = [] := by
  rw [List.filter_eq_nil_iff]
  intro e he
  rw [List.mem_map] at he
  obtain ⟨a, _, rfl⟩ := he
  simp [hp]

/-- C8: Artifact collection searches with exactly the five model-file
patterns; the collected list has no duplicate remote paths (provided
the remote filesystem has none — the five extension suffixes are
pairwise disjoint, so concatenating the per-pattern results introduces
no duplicates); an empty result returns without error, directory
creation or downloads; a non-empty result creates the
timestamp-suffixed results directory and downloads every matched file
to its bare filename inside it. -/
theorem artifact_collection_spec (c : Config)
    (hok : c.artifact_search_ok = true) (hnd : c.remote_files.Nodup) :
    patterns.length = 5
    ∧ (collectArtifacts c).2.filter isRemoteFind = patterns.map Event.remoteFind
    ∧ (modelFiles c.remote_files).Nodup
    ∧ (modelFiles c.remote_files = [] →
      collectArtifacts c = (Except.ok (), patterns.map Event.remoteFind))
    ∧ (modelFiles c.remote_files ≠ [] →
      collectArtifacts c =
        (Except.ok (),
          patterns.map Event.remoteFind
            ++ Event.mkdirResults (resultsDirName c.timestamp)
              :: (modelFiles c.remote_files).map fun f => Event.download f (basename f))) := by
  refine ⟨rfl, ?_, modelFiles_nodup hnd, ?_, ?_⟩
  · unfold collectArtifacts
    rw [hok]
    by_cases hfs : (modelFiles c.remote_files).isEmpty
    · simp [hfs, filter_remoteFind_finds]
    · simp [hfs, List.filter_append, filter_remoteFind_finds, List.filter_cons,
        isRemoteFind, filter_downloads_eq_nil isRemoteFind fun _ _ => rfl]
  · intro hempty
    unfold collectArtifacts
    rw [hok]
    simp [hempty]
  · intro hne
    unfold collectArtifacts
    rw [hok]
    have : (modelFiles c.remote_files).isEmpty = false := by
      cases hmf : modelFiles c.remote_files with
      | nil => exact absurd hmf hne
      | cons a l => simp [List.isEmpty]
    simp [this]

/-- Witness for C8: a remote tree with one `.pt` and one `.pth` file
is searched with exactly the five patterns. -/
theorem artifact_collection_spec_w :
    (collectArtifacts
      { search := fun _ => [], new_contract := none, instance_info := none,
        archive_ok := true, connect_ok := true, upload_ok := true, exit_status := 0,
        artifact_search_ok := true,
        remote_files := [["model.pt"], ["sub", "weights.pth"]],
        destroy_ok := true, elapsed_hours := 1, timestamp := 7 }).2.filter isRemoteFind
      = patterns.map Event.remoteFind :=
  (artifact_collection_spec _ rfl (by decide)).2.1

/-- C9 (counterexample): a dotfile nested below a non-dot directory is
archived: `sub/.secret` is present in the package of a project holding
it, although its filename starts with a dot — the dotfile filter of
`package_project` inspects top-level names only. -/
theorem package_contains_nested_dotfile :
    ["sub", ".secret"] ∈ package_project [["sub", ".secret"], ["train.py"]]
    ∧ startsWithDot (basename ["sub", ".secret"]) = true := by decide

/-- C9 (amended): the deployment package excludes top-level dotfiles:
every file whose path starts with a dot-prefixed top-level component is
absent from the archive (dotfiles nested below non-dot directories are
included, as the counterexample shows). -/
theorem package_top_dotfiles_excluded (files : List (List String)) (p : List String)
    (c : String) (rest : List String) (hp : p = c :: rest)
    (hdot : startsWithDot c = true) : p ∉ package_project files := by
  intro hmem
  unfold package_project at hmem
  rw [List.mem_filter] at hmem
  subst hp
  simp [hdot] at hmem

/-- Witness for C9 (amended): a top-level dotfile is not archived. -/
theorem package_top_dotfiles_excluded_w :
    [".env"] ∉ package_project [[".env"], ["train.py"]] :=
  package_top_dotfiles_excluded [[".env"], ["train.py"]] [".env"] ".env" [] rfl (by decide)

/-- C10: flattening downloads to their basename makes two discovered
artifacts with equal filenames in different remote directories target
the same local path; the final content of that path is the last
matching download (later overwrites earlier), and the number of
distinct local filenames written is strictly smaller than the number
of discovered artifacts. -/
theorem artifact_flattening_collision (c : Config) (f1 f2 : List String)
    (hok : c.artifact_search_ok = true)
    (h1 : f1 ∈ modelFiles c.remote_files) (h2 : f2 ∈ modelFiles c.remote_files)
    (hne : f1 ≠ f2) (hbn : basename f1 = basename f2) :
    Event.download f1 (basename f1) ∈ (collectArtifacts c).2
    ∧ Event.download f2 (basename f1) ∈ (collectArtifacts c).2
    ∧ downloadTargets (collectArtifacts c).2 = (modelFiles c.remote_files).map basename
    ∧ ((modelFiles c.remote_files).map basename).dedup.length
        < (modelFiles c.remote_files).length
    ∧ lookupEntry (applyDownloads (modelFiles c.remote_files)) (basename f1)
        = lastMatch (modelFiles c.remote_files) (basename f1) := by
  have hfe : (modelFiles c.remote_files).isEmpty = false := by
    cases hmf : modelFiles c.remote_files with
    | nil => rw [hmf] at h1; exact absurd h1 (List.not_mem_nil f1)
    | cons a l => simp [List.isEmpty]
  have hct : (collectArtifacts c).2 =
      patterns.map Event.remoteFind
        ++ Event.mkdirResults (resultsDirName c.timestamp)
          :: (modelFiles c.remote_files).map fun f => Event.download f (basename f) := by
    unfold collectArtifacts
    rw [hok]
    simp [hfe]
  refine ⟨?_, ?_, ?_, ?_, lookup_applyDownloads _ _⟩
  · rw [hct]
    refine List.mem_append_right _ (List.mem_cons_of_mem _ ?_)
    exact List.mem_map.mpr ⟨f1, h1, rfl⟩
  · rw [hct, hbn]
    refine List.mem_append_right _ (List.mem_cons_of_mem _ ?_)
    exact List.mem_map.mpr ⟨f2, h2, rfl⟩
  · rw [hct]
    unfold downloadTargets
    rw [List.filterMap_append]
    have hfinds : (patterns.map Event.remoteFind).filterMap
        (fun e => match e with | Event.download _ n => some n | _ => none) = [] := by
      rw [List.filterMap_eq_nil_iff]
      intro e he
      rw [List.mem_map] at he
      obtain ⟨a, _, rfl⟩ := he
      rfl
    rw [hfinds, List.nil_append, List.filterMap_cons]
    simp only
    rw [List.filterMap_map]
    have : ((fun e => match e with | Event.download _ n => some n | _ => none) ∘
        fun f => Event.download f (basename f)) = some ∘ basename := rfl
    rw [this, List.filterMap_eq_map]
  · have hmap : ¬ ((modelFiles c.remote_files).map basename).Nodup := by
      intro hnodup
      exact hne (List.inj_on_of_nodup_map hnodup h1 h2 hbn)
    have := dedup_length_lt hmap
    rwa [List.length_map] at this

/-- Witness for C10: two remote files both named `model.pt` collapse
to a single distinct local filename. -/
theorem artifact_flattening_collision_w :
    ((modelFiles [["a", "model.pt"], ["b", "model.pt"]]).map basename).dedup.length
      < (modelFiles [["a", "model.pt"], ["b", "model.pt"]]).length :=
  (artifact_flattening_collision
    { search := fun _ => [], new_contract := none, instance_info := none,
      archive_ok := true, connect_ok := true, upload_ok := true, exit_status := 0,
      artifact_search_ok := true,
      remote_files := [["a", "model.pt"], ["b", "model.pt"]],
      destroy_ok := true, elapsed_hours := 1, timestamp := 7 }
    ["a", "model.pt"] ["b", "model.pt"] rfl (by decide) (by decide) (by decide)
    (by decide)).2.2.2.1

/-- C1 (code bug): with the backend reporting `new_contract = 0`, the
instance is created and the run completes, but the cleanup guard
`if contract_id:` of line 298 treats id 0 as falsy — `destroy_instance`
is never called, so the created instance outlives the orchestrator run
against the invariant that every created instance is destroyed exactly
once on every exit path. -/
theorem contract_zero_escapes_cleanup :
    Event.createInstance 101 ∈ (run cfgContractZero).2
    ∧ (run cfgContractZero).2.filter isDestroyInstance = []
    ∧ (run cfgContractZero).1 = Except.ok () := by decide

/-- C2 (counterexample): in a fully successful run whose cleanup
destroy call fails, the `RuntimeError` raised by `_run_vastai_cmd`
propagates out of the `finally` of lines 297-299: the run's outcome
becomes the teardown failure although the job succeeded (the cost
report is in the trace) — nothing in `run` catches it. -/
theorem destroy_failure_masks_success :
    Event.reportCost 10 ∈ (run cfgDestroyFail).2
    ∧ (run cfgDestroyFail).1 = Except.error Err.destroyFailed := by decide

/-- C2 (amended): a failing cleanup destroy call is not swallowed: its
error propagates and becomes the run's outcome, replacing a successful
job's result and superseding a failed job's exception, whatever
happened between provisioning and cleanup. -/
theorem destroy_failure_replaces_outcome (c : Config) (offer : Offer) (ftr : List Event)
    (cid : Int) (hf : find_best_gpu c.search = (Except.ok offer, ftr))
    (hc : c.new_contract = some cid) (hcid : cid ≠ 0) (hd : c.destroy_ok = false) :
    (run c).1 = Except.error Err.destroyFailed := by
  cases hw : c.instance_info with
  | none =>
    unfold run tryBody
    rw [hf, hc, hw]
    simp [hcid, hd]
  | some info =>
    rw [run_provisioned c offer ftr cid info hf hc hw hcid]
    simp [hd]

/-- Witness for C2 (amended): the fully successful environment with a
failing destroy ends in the destroy error. -/
theorem destroy_failure_replaces_outcome_w :
    (run cfgDestroyFail).1 = Except.error Err.destroyFailed :=
  destroy_failure_replaces_outcome cfgDestroyFail offerX [Event.searchOffers tier1Query] 7
    (by decide) rfl (by decide) rfl

/-- C3 (counterexample): a run that reaches provisioning but whose
upload fails reports no cost at all — lines 290-292 sit inside the
inner `try` after `run_on_instance`, so they are skipped on failure,
against the claim that the cost is computed whether the run succeeded
or not. -/
theorem cost_skipped_on_failed_run :
    Event.createInstance 101 ∈ (run cfgUploadFail).2
    ∧ (run cfgUploadFail).2.filter isReportCost = []
    ∧ (run cfgUploadFail).1 = Except.error Err.uploadFailed := by decide

/-- C3 (amended): exactly the runs whose remote phase succeeds report a
cost; the reported cost is elapsed wall-clock hours times the
originally selected offer's hourly price, computed from the recorded
start time and the offer snapshot with no further backend query. -/
theorem cost_reported_only_on_success (c : Config) (offer : Offer) (ftr : List Event)
    (cid : Int) (info : InstInfo)
    (hf : find_best_gpu c.search = (Except.ok offer, ftr))
    (hc : c.new_contract = some cid) (hw : c.instance_info = some info)
    (ha : c.archive_ok = true) (hcn : c.connect_ok = true) (hu : c.upload_ok = true)
    (hx : c.exit_status = 0) (hart : c.artifact_search_ok = true) :
    (run c).2.filter isReportCost =
      [Event.reportCost (c.elapsed_hours * offer.dph_total)] := by
  rw [run_filter_provisioned c offer ftr cid info hf hc hw isReportCost
    (by intro e he; cases e <;> simp_all [isBackendCall, isReportCost])]
  rw [afterProvision_archive_ok c info offer ha]
  have hro := run_on_instance_success c info hcn hu hx
  have hcol := collectArtifacts_ok c hart
  simp [innerPhase, hro, hcol, List.filter_append, List.filter_cons, isReportCost,
    collect_trace_filter_eq_nil c isReportCost (fun _ => rfl) (fun _ => rfl) fun _ _ => rfl]

/-- Witness for C3 (amended): the successful environment reports the
cost 2 hours times 5 dollars. -/
theorem cost_reported_only_on_success_w :
    (run baseCfg).2.filter isReportCost =
      [Event.reportCost (baseCfg.elapsed_hours * offerX.dph_total)] :=
  cost_reported_only_on_success baseCfg offerX [Event.searchOffers tier1Query] 7 infoX
    (by decide) rfl rfl rfl rfl rfl rfl rfl

/-- C5 (counterexample): the remote job exits nonzero while the backend
had reported contract id 0: the job-failed error is raised and
artifacts are skipped, yet the instance is NOT destroyed — the
truthiness guard of line 298 skips cleanup for contract id 0, so
"the instance is still destroyed" fails. -/
theorem job_failure_zero_cid_leaks_instance :
    Event.createInstance 101 ∈ (run cfgJobFailZeroCid).2
    ∧ (run cfgJobFailZeroCid).1 = Except.error Err.trainingFailed
    ∧ (run cfgJobFailZeroCid).2.filter isDestroyInstance = [] := by decide

/-- C5 (amended): if the remote job exits nonzero, deployment raises
the job-failed error, no artifact search, directory creation or
download happens, and — provided the contract id is nonzero — the
instance is still destroyed, exactly once, as the run's final event. -/
theorem job_failure_skips_artifacts_and_destroys (c : Config) (offer : Offer)
    (ftr : List Event) (cid : Int) (info : InstInfo)
    (hf : find_best_gpu c.search = (Except.ok offer, ftr))
    (hc : c.new_contract = some cid) (hcid : cid ≠ 0) (hw : c.instance_info = some info)
    (ha : c.archive_ok = true) (hcn : c.connect_ok = true) (hu : c.upload_ok = true)
    (hx : c.exit_status ≠ 0) (hd : c.destroy_ok = true) :
    (run c).1 = Except.error Err.trainingFailed
    ∧ (run c).2.filter isArtifactEvent = []
    ∧ (run c).2.filter isDestroyInstance = [Event.destroyInstance cid]
    ∧ (run c).2.getLast? = some (Event.destroyInstance cid) := by
  have hro := run_on_instance_jobfail c info hcn hu hx
  have hap : afterProvision c info offer =
      (Except.error Err.trainingFailed,
        [Event.createTempFile, Event.writeArchive]
          ++ ((Event.sshConnect (resolveConn info).1 (resolveConn info).2
              :: [Event.upload, Event.remoteSetup, Event.execTrain] ++ [Event.sshClose])
            ++ [Event.unlinkPackage])) := by
    rw [afterProvision_archive_ok c info offer ha]
    simp [innerPhase, hro]
  have hrun := run_provisioned c offer ftr cid info hf hc hw hcid
  rw [hap, hd] at hrun
  have hftr : ∀ p : Event → Bool, (∀ q, p (Event.searchOffers q) = false) →
      ftr.filter p = [] := by
    intro p hp
    rw [List.filter_eq_nil_iff]
    intro e he
    have h2 : (find_best_gpu c.search).2 = ftr := by rw [hf]
    have hse := find_best_gpu_trace_searches c.search e (h2 ▸ he)
    cases e <;> simp_all [isSearchOffers]
  refine ⟨by simp [hrun], ?_, ?_, ?_⟩
  · rw [hrun]
    simp [List.filter_append, List.filter_cons, hftr isArtifactEvent fun _ => rfl,
      isArtifactEvent, isRemoteFind, isMkdirResults, isDownload]
  · rw [hrun]
    simp [List.filter_append, List.filter_cons, hftr isDestroyInstance fun _ => rfl,
      isDestroyInstance]
  · rw [hrun]
    exact List.getLast?_concat _

/-- Witness for C5 (amended): with contract id 7 and exit status 1 the
run destroys instance 7 exactly once. -/
theorem job_failure_skips_artifacts_and_destroys_w :
    (run cfgJobFail).2.filter isDestroyInstance = [Event.destroyInstance 7] :=
  (job_failure_skips_artifacts_and_destroys cfgJobFail offerX
    [Event.searchOffers tier1Query] 7 infoX
    (by decide) rfl (by decide) rfl rfl rfl rfl (by decide) rfl).2.2.1

/-- C7 (counterexample): tar writing fails after the temp file was
created with `delete=False` (line 148): the exception propagates before
the inner `try` of line 285 is entered, so the temp file is never
unlinked although the deployment phase raised — the package file
survives the run. -/
theorem package_leak_on_archive_failure :
    Event.createTempFile ∈ (run cfgArchiveFail).2
    ∧ (run cfgArchiveFail).2.filter isUnlinkPackage = []
    ∧ (run cfgArchiveFail).1 = Except.error Err.archiveFailed := by decide

/-- C7 (amended): once packaging completed, the package file is deleted
exactly once, on every exit path of the remote deployment phase
(connect, upload, execution and artifact-collection failures included,
and independently of the cleanup destroy); only a failure inside
packaging itself, after temp-file creation, escapes the deletion
scope. -/
theorem package_deleted_once_after_packaging (c : Config) (offer : Offer)
    (ftr : List Event) (cid : Int) (info : InstInfo)
    (hf : find_best_gpu c.search = (Except.ok offer, ftr))
    (hc : c.new_contract = some cid) (hw : c.instance_info = some info)
    (ha : c.archive_ok = true) :
    (run c).2.filter isUnlinkPackage = [Event.unlinkPackage] := by
  rw [run_filter_provisioned c offer ftr cid info hf hc hw isUnlinkPackage
    (by intro e he; cases e <;> simp_all [isBackendCall, isUnlinkPackage])]
  rw [afterProvision_archive_ok c info offer ha]
  simp [List.filter_append, List.filter_cons, isUnlinkPackage,
    innerPhase_filter_unlink c info offer]

/-- Witness for C7 (amended): even with a failing upload the package
file is deleted exactly once. -/
theorem package_deleted_once_after_packaging_w :
    (run cfgUploadFail).2.filter isUnlinkPackage = [Event.unlinkPackage] :=
  package_deleted_once_after_packaging cfgUploadFail offerX
    [Event.searchOffers tier1Query] 7 infoX (by decide) rfl rfl rfl

end Speedrun
